import Mathlib

/-!
A shallow embedding of the MSAL session facade from ulaval/modul-auth-msal
(lib/src/main.ts together with lib/src/types.ts), plus the earlier revision of
the same class that the repository history carries (namespace Legacy).  Pure
methods of the TypeScript class become Lean functions; the mutable fields of
the class instance and the browser timer table are threaded explicitly;
awaited collaborator calls (msal's acquireTokenSilent, axios) are supplied as
explicit outcomes; observable collaborator calls (logging, redirects, identity
client construction, store writes) are returned as effect lists.  JavaScript
epoch-millisecond instants (results of Date.getTime()) are modelled as Int.
-/

namespace AuthMsal

/-- A JSON response payload, kept opaque as its serialized form. -/
abbrev Payload := String

/-- A plain-object account record (msal's Account), as its list of own
fields; the surrounding Option models null/undefined returns. -/
abbrev Account := List (String × String)

/-- lodash isEmpty on an optional account record: null, undefined and the
empty object are all empty. -/
def isEmpty (account : Option Account) : Bool :=
  match account with
  | none => true
  | some fields => fields.isEmpty

/-- ErrorCode.ConsentRequired from types.ts. -/
def ErrorCode.consentRequired : String := "consent_required"

/-- ErrorCode.LoginRequired from types.ts. -/
def ErrorCode.loginRequired : String := "login_required"

/-- ErrorCode.InteractionRequired from types.ts. -/
def ErrorCode.interactionRequired : String := "interaction_required"

/-- The error rejected by acquireTokenSilent.  A plain Error carries no
errorCode field, hence the Option. -/
structure AuthError where
  errorCode : Option String
  errorMessage : String := ""
deriving DecidableEq

/-- The msal AuthResponse resolved by a successful acquireTokenSilent call;
expiresOn is kept as the integer epoch milliseconds of expiresOn.getTime(). -/
structure AuthResponse where
  accessToken : String
  expiresOn : Int
  scopes : List String
deriving DecidableEq

/-- msal AuthenticationParameters (the QueryParameters alias); only the
scopes member is ever used by this code base. -/
structure QueryParameters where
  scopes : List String
deriving DecidableEq

/-- MSAL.requiresInteraction (main.ts): JavaScript truthiness of the error
code (undefined, null and the empty string are falsy) followed by comparison
against the three ErrorCode members. -/
def requiresInteraction (errorCode : Option String) : Bool :=
  match errorCode with
  | none => false
  | some code =>
    if code = "" then false
    else
      code == ErrorCode.consentRequired ||
      code == ErrorCode.interactionRequired ||
      code == ErrorCode.loginRequired

/-- One pending window.setTimeout entry: the handle the browser returned and
the millisecond delay the callback was scheduled with. -/
structure PendingTimer where
  id : Nat
  delay : Int
deriving DecidableEq

/-- The browser timer table: currently pending one-shot timers plus the next
handle window.setTimeout will hand out (browser handles are positive
integers, so a well-formed table has nextId at least 1). -/
structure TimerSys where
  pending : List PendingTimer
  nextId : Nat
deriving DecidableEq

/-- window.clearTimeout: drop the pending timer with the given handle. -/
def TimerSys.clearTimeout (ts : TimerSys) (t : Nat) : TimerSys :=
  { ts with pending := ts.pending.filter (fun p => p.id != t) }

/-- window.setTimeout: append a fresh pending timer and return its handle. -/
def TimerSys.setTimeout (ts : TimerSys) (delay : Int) : Nat × TimerSys :=
  (ts.nextId,
   { pending := ts.pending ++ [⟨ts.nextId, delay⟩], nextId := ts.nextId + 1 })

/-- The result cache this.data.query: a JavaScript object keyed by request
id, modelled as a string-keyed partial map. -/
abbrev QueryData := String → Option Payload

/-- JavaScript property assignment on the result cache object. -/
def QueryData.setEntry (d : QueryData) (k : String) (v : Payload) : QueryData :=
  fun x => if x = k then some v else d x

/-- The mutable fields of the MSAL class instance that the token lifecycle
and query engine touch (main.ts): the private accessToken and
tokenExpirationTimer members and the public data object. -/
structure MSALState where
  accessToken : String
  tokenExpirationTimer : Option Nat
  dataIsAuthenticated : Bool
  dataUser : Option Account
  dataQuery : QueryData

/-- JavaScript truthiness of this.tokenExpirationTimer: undefined is falsy
and so is the numeric handle 0. -/
def timerTruthy (t : Option Nat) : Bool :=
  match t with
  | none => false
  | some handle => handle != 0

/-- The expression tokenRenewalOffset or-else 0 in setAccessToken: a
JavaScript falsy (absent or zero) offset collapses to 0. -/
def renewalOffsetValue (tokenRenewalOffset : Option Int) : Int :=
  match tokenRenewalOffset with
  | none => 0
  | some v => if v == 0 then 0 else v

/-- MSAL.setAccessToken (main.ts): store the token, compute the timer delay
as expiresOn.getTime() minus the current instant minus the renewal offset
read from the identity client's system configuration (seconds, subtracted
from a millisecond difference as-is), clear a truthy previously stored timer
handle, and schedule the expiry callback.  The scopes argument is only
captured by the scheduled callback, which is outside the scope of the model. -/
def setAccessToken (st : MSALState) (ts : TimerSys)
    (accessToken : String) (expiresOn : Int) (scopes : List String)
    (now : Int) (tokenRenewalOffset : Option Int) : MSALState × TimerSys :=
  let st1 := { st with accessToken := accessToken }
  let expirationOffset := renewalOffsetValue tokenRenewalOffset
  let expiration := expiresOn - now - expirationOffset
  let ts1 :=
    if timerTruthy st1.tokenExpirationTimer then
      ts.clearTimeout (st1.tokenExpirationTimer.getD 0)
    else ts
  let scheduled := ts1.setTimeout expiration
  ({ st1 with tokenExpirationTimer := some scheduled.1 }, scheduled.2)

/-- Observable collaborator calls made during acquireToken. -/
inductive AcquireEffect
  | logError
  | acquireTokenRedirect (params : QueryParameters)
deriving DecidableEq

/-- Projection picking out the interactive redirect calls from an effect
trace, together with the parameters they were invoked with. -/
def redirectTarget : AcquireEffect → Option QueryParameters
  | .acquireTokenRedirect p => some p
  | .logError => none

/-- The outcome of one acquireToken call: the resolved string, the instance
state and timer table afterwards, and the collaborator calls made. -/
structure AcquireResult where
  ret : String
  st : MSALState
  ts : TimerSys
  effects : List AcquireEffect

/-- MSAL.acquireToken (main.ts), with the awaited lib.acquireTokenSilent
outcome supplied as silent.  On success it stores the token via
setAccessToken and resolves with this.accessToken; on any rejection it logs
the error, triggers acquireTokenRedirect exactly when requiresInteraction
accepts the error code, and resolves with the empty string. -/
def acquireToken (st : MSALState) (ts : TimerSys)
    (silent : Except AuthError AuthResponse) (queryParameters : QueryParameters)
    (now : Int) (tokenRenewalOffset : Option Int) : AcquireResult :=
  match silent with
  | .ok response =>
    let after := setAccessToken st ts response.accessToken response.expiresOn
      response.scopes now tokenRenewalOffset
    { ret := after.1.accessToken, st := after.1, ts := after.2, effects := [] }
  | .error e =>
    { ret := ""
      st := st
      ts := ts
      effects :=
        [AcquireEffect.logError] ++
          (if requiresInteraction e.errorCode then
            [AcquireEffect.acquireTokenRedirect queryParameters]
          else []) }

/-- MSAL.isAuthenticated (main.ts): not an auth callback (lib.isCallback on
window.location.hash) and a lodash-non-empty lib.getAccount result. -/
def isAuthenticated (libIsCallback : String → Bool) (windowLocationHash : String)
    (account : Option Account) : Bool :=
  !(libIsCallback windowLocationHash) && !(isEmpty account)

/-- HTTP headers of a request, as a string-keyed partial map. -/
abbrev Headers := String → Option String

/-- The QueryOptions type of types.ts (method, headers, params, data,
responseType), every member optional. -/
structure QueryOptions where
  method : Option String := none
  headers : Headers := fun _ => none
  params : Option (List (String × String)) := none
  data : Option Payload := none
  responseType : Option String := none

/-- A structured endpoint descriptor: the url plus the optional id used to
key the result cache.  (Its axios members are never read by the code.) -/
structure EndpointObj where
  url : String
  id : Option String := none
deriving DecidableEq

/-- The QueryEndpoint type of types.ts: a bare url string or a structured
descriptor. -/
inductive QueryEndpoint
  | str (url : String)
  | obj (e : EndpointObj)
deriving DecidableEq

/-- The url carried by an endpoint in either form. -/
def endpointUrl : QueryEndpoint → String
  | .str s => s
  | .obj e => e.url

/-- The id carried by an endpoint (a bare string has none). -/
def endpointId : QueryEndpoint → Option String
  | .str _ => none
  | .obj e => e.id

/-- The Query request descriptor of types.ts handed to axios.request:
options merged with the resolved url and (in the earlier revision) an id. -/
structure Query where
  url : String
  id : Option String := none
  method : Option String := none
  headers : Headers := fun _ => none
  params : Option (List (String × String)) := none
  data : Option Payload := none
  responseType : Option String := none

/-- MSAL.createQuery (main.ts): normalize a bare string endpoint into a
structured one, reject an empty url, then spread the options under the
resolved url.  No id member is produced: the options carry none and the
endpoint's own id is not copied over. -/
def createQuery (endpoint : QueryEndpoint) (options : QueryOptions) :
    Except String Query :=
  let ep : EndpointObj :=
    match endpoint with
    | .str s => { url := s }
    | .obj e => e
  if ep.url = "" then .error "URL endpoint must not be empty"
  else
    .ok { url := ep.url, method := options.method, headers := options.headers,
          params := options.params, data := options.data,
          responseType := options.responseType }

/-- The request-building half of MSAL.executeQuery (main.ts): build the
query, prepend the configured base url when the url does not start with
http (the JavaScript test url.search of http not equal 0), and overwrite the
Authorization header with the bearer form of the held access token. -/
def executeQueryRequest (endpoint : QueryEndpoint) (options : QueryOptions)
    (baseUrl : Option String) (accessToken : String) : Except String Query :=
  match createQuery endpoint options with
  | .error e => .error e
  | .ok q =>
    let q1 :=
      if !(q.url.startsWith "http") && baseUrl.isSome then
        { q with url := baseUrl.getD "" ++ q.url }
      else q
    .ok { q1 with
          headers := fun k =>
            if k = "Authorization" then some ("Bearer " ++ accessToken)
            else q1.headers k }

/-- The axios response object (data, status, statusText, headers). -/
structure QueryResponse where
  data : Payload
  status : Nat
  statusText : String := ""
  headers : Headers := fun _ => none

/-- The outcome of one MSAL.query call: instance state and timer table
afterwards, the acquisition effect trace, the request actually handed to
axios.request, and the response returned to the caller. -/
structure QueryResult where
  st : MSALState
  ts : TimerSys
  effects : List AcquireEffect
  request : Query
  response : QueryResponse

/-- MSAL.query (main.ts): assign this.accessToken from acquireToken (whose
silent outcome is supplied), execute the request (axios resolving with
transport), store response.data in this.data.query under the endpoint's id
when the endpoint is an object carrying one, and return the full response. -/
def query (st : MSALState) (ts : TimerSys)
    (endpoint : QueryEndpoint) (options : QueryOptions)
    (parameters : QueryParameters)
    (silent : Except AuthError AuthResponse) (transport : QueryResponse)
    (baseUrl : Option String) (now : Int) (tokenRenewalOffset : Option Int) :
    Except String QueryResult :=
  let a := acquireToken st ts silent parameters now tokenRenewalOffset
  let st1 := { a.st with accessToken := a.ret }
  match executeQueryRequest endpoint options baseUrl st1.accessToken with
  | .error e => .error e
  | .ok request =>
    let response := transport
    let st2 :=
      match endpoint with
      | .obj e =>
        match e.id with
        | some i => { st1 with dataQuery := st1.dataQuery.setEntry i response.data }
        | none => st1
      | .str _ => st1
    .ok { st := st2, ts := a.ts, effects := a.effects,
          request := request, response := response }

/-- The user-supplied auth section of the plugin Config; every member except
clientId is optional, and clientId itself may be absent or null at runtime
(the tests construct exactly that). -/
structure AuthConfigInput where
  clientId : Option String := none
  tenantId : Option String := none
  tenantName : Option String := none
  validateAuthority : Option Bool := none
  redirectUri : Option String := none
  postLogoutRedirectUri : Option String := none
  navigateToLoginRequestUrl : Option Bool := none
  requireAuthOnInitialize : Option Bool := none
  autoRefreshToken : Option Bool := none

/-- The resolved auth configuration after merging over the defaults. -/
structure AuthConfig where
  clientId : String
  tenantId : String
  tenantName : String
  validateAuthority : Bool
  redirectUri : String
  postLogoutRedirectUri : String
  navigateToLoginRequestUrl : Bool
  requireAuthOnInitialize : Bool
  autoRefreshToken : Bool

/-- The built-in authConfig defaults of the MSAL class (main.ts); the
redirect uris default to window.location.href. -/
def defaultAuthConfig (windowLocationHref : String) : AuthConfig :=
  { clientId := ""
    tenantId := "common"
    tenantName := "login.microsoftonline.com"
    validateAuthority := true
    redirectUri := windowLocationHref
    postLogoutRedirectUri := windowLocationHref
    navigateToLoginRequestUrl := true
    requireAuthOnInitialize := false
    autoRefreshToken := true }

/-- Object.assign of the user auth section over the defaults: a supplied
member replaces the default, an absent one keeps it. -/
def mergeAuthConfig (d : AuthConfig) (u : AuthConfigInput) : AuthConfig :=
  { clientId := u.clientId.getD d.clientId
    tenantId := u.tenantId.getD d.tenantId
    tenantName := u.tenantName.getD d.tenantName
    validateAuthority := u.validateAuthority.getD d.validateAuthority
    redirectUri := u.redirectUri.getD d.redirectUri
    postLogoutRedirectUri := u.postLogoutRedirectUri.getD d.postLogoutRedirectUri
    navigateToLoginRequestUrl :=
      u.navigateToLoginRequestUrl.getD d.navigateToLoginRequestUrl
    requireAuthOnInitialize :=
      u.requireAuthOnInitialize.getD d.requireAuthOnInitialize
    autoRefreshToken := u.autoRefreshToken.getD d.autoRefreshToken }

/-- The user-supplied query section of the plugin Config. -/
structure QueryConfigInput where
  parameters : Option QueryParameters := none
  baseUrl : Option String := none

/-- The resolved query configuration. -/
structure QueryConfig where
  parameters : QueryParameters
  baseUrl : Option String

/-- The built-in queryConfig defaults of the MSAL class (main.ts). -/
def defaultQueryConfig : QueryConfig :=
  { parameters := { scopes := ["user.read"] }
    baseUrl := some "https://graph.microsoft.com/v1.0" }

/-- Object.assign of the user query section over the defaults. -/
def mergeQueryConfig (d : QueryConfig) (u : QueryConfigInput) : QueryConfig :=
  { parameters := u.parameters.getD d.parameters
    baseUrl := match u.baseUrl with | some b => some b | none => d.baseUrl }

/-- The plugin Config object (cache, system and logger sections carry no
state this model needs beyond the renewal offset threaded separately). -/
structure Config where
  auth : AuthConfigInput
  query : Option QueryConfigInput := none

/-- JavaScript falsiness of config.auth.clientId: absent, null or empty. -/
def clientIdFalsy (clientId : Option String) : Bool :=
  match clientId with
  | none => true
  | some s => s == ""

/-- Observable side effects of the MSAL constructor. -/
inductive ConstructEffect
  | newUserAgentApplication (clientId : String) (authority : String)
  | loginRedirect (params : QueryParameters)
deriving DecidableEq

/-- The MSAL constructor (main.ts): reject a falsy auth.clientId before
anything else runs, merge the configuration sections, construct the extended
identity client, optionally trigger login, then snapshot the authentication
state and account into this.data.  The effect trace records the collaborator
constructions and calls in program order. -/
def construct (config : Config) (windowLocationHref windowLocationHash : String)
    (libIsCallback : String → Bool) (libAccount : Option Account) :
    List ConstructEffect × Except String MSALState :=
  if clientIdFalsy config.auth.clientId then
    ([], Except.error "auth.clientId option is required")
  else
    let authConfig := mergeAuthConfig (defaultAuthConfig windowLocationHref) config.auth
    let queryConfig :=
      mergeQueryConfig defaultQueryConfig (config.query.getD {})
    let authority :=
      "https://" ++ authConfig.tenantName ++ "/" ++ authConfig.tenantId
    let isAuth := isAuthenticated libIsCallback windowLocationHash libAccount
    let loginEffects :=
      if authConfig.requireAuthOnInitialize && !isAuth then
        [ConstructEffect.loginRedirect queryConfig.parameters]
      else []
    let st : MSALState :=
      { accessToken := ""
        tokenExpirationTimer := none
        dataIsAuthenticated := isAuth
        dataUser := if isAuth then libAccount else none
        dataQuery := fun _ => none }
    ([ConstructEffect.newUserAgentApplication authConfig.clientId authority]
       ++ loginEffects,
     Except.ok st)

/-- Well-formedness of the timer table with respect to the instance: the
next fresh browser handle is positive, and the pending timers are exactly
the one whose handle the instance stores in tokenExpirationTimer — none when
the member is undefined, and one single entry, with a positive handle below
the next fresh one, when it is set. -/
abbrev timerWellFormed (st : MSALState) (ts : TimerSys) : Prop :=
  0 < ts.nextId ∧
  ((st.tokenExpirationTimer = none ∧ ts.pending = []) ∨
   (∃ t d, st.tokenExpirationTimer = some t ∧ ts.pending = [⟨t, d⟩] ∧
      0 < t ∧ t < ts.nextId))

namespace Legacy

/-- The earlier revision's MSAL.createQuery: same normalization and empty-url
rejection, but the produced descriptor always carries an id, namely the
JavaScript expression endpoint.id or-else the string defaultID- followed by
the positional index (which every call site leaves at its default 0). -/
def createQuery (endpoint : QueryEndpoint) (options : QueryOptions)
    (index : Nat) : Except String Query :=
  let ep : EndpointObj :=
    match endpoint with
    | .str s => { url := s }
    | .obj e => e
  if ep.url = "" then .error "Empty endpoint url"
  else
    let defaultId := "defaultID-" ++ toString index
    let chosenId :=
      match ep.id with
      | some i => if i = "" then defaultId else i
      | none => defaultId
    .ok { url := ep.url, id := some chosenId, method := options.method,
          headers := options.headers, params := options.params,
          data := options.data, responseType := options.responseType }

/-- The outcome of the earlier revision's initialQuery: the value assigned
to this.data.query, the (id, url) queries actually dispatched, and the
store.setItem calls performed. -/
structure InitialQueryResult where
  dataQuery : List (String × Payload)
  issued : List (String × String)
  storeWrites : List (String × List (String × Payload))
deriving DecidableEq

/-- The earlier revision's MSAL.initialQuery: guarded by the endpoint map
being defined (an undefined map means the whole body is skipped), it reads
the cached results stored under the key msal.query- followed by the current
access token, dispatches only the endpoints whose id is not already cached,
merges the fresh response bodies over the cached ones, assigns the union to
this.data.query and persists it back under the same key.  No branch throws. -/
def initialQuery (endpoints : Option (List (String × String)))
    (dataQuery0 : List (String × Payload))
    (stored : String → Option (List (String × Payload)))
    (transportData : String → Payload) (accessToken : String) :
    Except String InitialQueryResult :=
  match endpoints with
  | none => .ok { dataQuery := dataQuery0, issued := [], storeWrites := [] }
  | some eps =>
    let key := "msal.query-" ++ accessToken
    let storedEntries := (stored key).getD []
    let storedIds := storedEntries.map Prod.fst
    let queries := eps.filter (fun p => !(storedIds.contains p.1))
    let formatted := queries.map (fun p => (p.1, transportData p.2))
    let results := storedEntries ++ formatted
    .ok { dataQuery := results, issued := queries,
          storeWrites := [(key, results)] }

/-- The earlier revision's constructor tail: after the initial acquireToken
resolves, this.initialQuery() runs exactly when query.callAfterInit is set;
otherwise nothing happens. -/
def afterInitAcquire (callAfterInit : Bool)
    (endpoints : Option (List (String × String)))
    (dataQuery0 : List (String × Payload))
    (stored : String → Option (List (String × Payload)))
    (transportData : String → Payload) (accessToken : String) :
    Except String InitialQueryResult :=
  if callAfterInit then
    initialQuery endpoints dataQuery0 stored transportData accessToken
  else
    .ok { dataQuery := dataQuery0, issued := [], storeWrites := [] }

end Legacy

/-- A sample instance state used to instantiate the claim theorems. -/
def sampleState : MSALState :=
  { accessToken := ""
    tokenExpirationTimer := none
    dataIsAuthenticated := false
    dataUser := none
    dataQuery := fun _ => none }

/-- A sample empty timer table with the first browser handle being 1. -/
def sampleTimers : TimerSys :=
  { pending := [], nextId := 1 }

/-- A sample successful silent-acquisition response. -/
def sampleResponse : AuthResponse :=
  { accessToken := "token", expiresOn := 253402214400000, scopes := [] }

/-- A sample set of authentication parameters. -/
def sampleParams : QueryParameters :=
  { scopes := ["user.read"] }

/-- A sample transport response. -/
def sampleTransport : QueryResponse :=
  { data := "test-payload", status := 200 }

/-- Query options with every member left at its default. -/
def emptyOptions : QueryOptions := {}

/-- Claim C3: requiresInteraction is a pure total predicate, true for exactly
the three recognized interaction-required error codes and false for the empty
string, for null/undefined, and for every other string; being a total Lean
function it can never throw. -/
theorem requiresInteraction_spec (c : Option String) :
    (requiresInteraction c = true ↔
      c = some "consent_required" ∨ c = some "interaction_required" ∨
        c = some "login_required") ∧
    requiresInteraction none = false ∧ requiresInteraction (some "") = false := by
  refine ⟨?_, rfl, rfl⟩
  cases c with
  | none => simp [requiresInteraction]
  | some s =>
    by_cases hs : s = ""
    · subst hs
      simp [requiresInteraction]
    · simp [requiresInteraction, hs, ErrorCode.consentRequired,
        ErrorCode.interactionRequired, ErrorCode.loginRequired, or_assoc]

/-- Claim C1: whenever silent acquisition rejects, acquireToken resolves to
the empty string (the embedding is total, so nothing is raised to the
caller); when the rejection's error code satisfies requiresInteraction the
effect trace contains exactly one acquireTokenRedirect call, made with the
requested authentication parameters, and otherwise it contains none. -/
theorem acquireToken_failure_spec (st : MSALState) (ts : TimerSys)
    (e : AuthError) (p : QueryParameters) (now : Int) (off : Option Int) :
    (acquireToken st ts (.error e) p now off).ret = "" ∧
    (acquireToken st ts (.error e) p now off).effects.filterMap redirectTarget
      = (if requiresInteraction e.errorCode then [p] else []) := by
  refine ⟨rfl, ?_⟩
  by_cases h : requiresInteraction e.errorCode
  · simp [acquireToken, h, redirectTarget]
  · simp [acquireToken, h, redirectTarget]

/-- Claim C4: isAuthenticated is true exactly when the identity library does
not recognize the current url fragment as an authentication callback and the
current account record is a non-empty object; in particular an empty object
account (or a null/undefined one) yields false regardless of the callback
check. -/
theorem isAuthenticated_spec (cb : String → Bool) (hash : String)
    (account : Option Account) :
    (isAuthenticated cb hash account = true ↔
      (cb hash = false ∧ ∃ fields, account = some fields ∧ fields ≠ [])) ∧
    isAuthenticated cb hash (some []) = false ∧
    isAuthenticated cb hash none = false := by
  refine ⟨?_, by simp [isAuthenticated, isEmpty], by simp [isAuthenticated, isEmpty]⟩
  cases account with
  | none => simp [isAuthenticated, isEmpty]
  | some fields =>
    cases fields with
    | nil => simp [isAuthenticated, isEmpty]
    | cons f rest => simp [isAuthenticated, isEmpty]

/-- Claim C10: the delay handed to window.setTimeout by setAccessToken is
exactly expiresOn.getTime() minus the current instant minus the configured
system.tokenRenewalOffsetSeconds (0 when the field is absent or falsy): the
seconds-valued offset is subtracted from a millisecond difference with no
unit conversion.  The newly scheduled timer is the last appended pending
entry and its handle is the one stored back into the instance. -/
theorem setAccessToken_delay_spec (st : MSALState) (ts : TimerSys)
    (tok : String) (expiresOn : Int) (scopes : List String) (now : Int)
    (offset : Option Int) :
    (setAccessToken st ts tok expiresOn scopes now offset).2.pending.getLast?
      = some ⟨ts.nextId, expiresOn - now - offset.getD 0⟩ ∧
    (setAccessToken st ts tok expiresOn scopes now offset).1.tokenExpirationTimer
      = some ts.nextId := by
  have hoff : renewalOffsetValue offset = offset.getD 0 := by
    cases offset with
    | none => rfl
    | some v =>
      by_cases hv : v = 0
      · simp [renewalOffsetValue, hv]
      · simp [renewalOffsetValue, hv]
  constructor
  · simp only [setAccessToken, TimerSys.setTimeout, TimerSys.clearTimeout, hoff]
    rw [List.getLast?_concat]
    split <;> rfl
  · by_cases h : timerTruthy st.tokenExpirationTimer = true
    · simp [setAccessToken, TimerSys.setTimeout, TimerSys.clearTimeout, h]
    · simp [setAccessToken, TimerSys.setTimeout, h]

/-- One setAccessToken call from a well-formed pair leaves exactly the newly
scheduled timer pending, advances the fresh-handle counter, and stores the
new handle in the instance. -/
theorem setAccessToken_step (st : MSALState) (ts : TimerSys)
    (tok : String) (expiresOn : Int) (scopes : List String) (now : Int)
    (off : Option Int) (h : timerWellFormed st ts) :
    (setAccessToken st ts tok expiresOn scopes now off).2.pending
      = [⟨ts.nextId, expiresOn - now - renewalOffsetValue off⟩] ∧
    (setAccessToken st ts tok expiresOn scopes now off).2.nextId = ts.nextId + 1 ∧
    (setAccessToken st ts tok expiresOn scopes now off).1.tokenExpirationTimer
      = some ts.nextId := by
  obtain ⟨hpos, hcase⟩ := h
  have hcleared :
      (if timerTruthy st.tokenExpirationTimer then
        ts.clearTimeout (st.tokenExpirationTimer.getD 0) else ts).pending = []
      ∧ (if timerTruthy st.tokenExpirationTimer then
        ts.clearTimeout (st.tokenExpirationTimer.getD 0) else ts).nextId = ts.nextId := by
    rcases hcase with ⟨hnone, hpend⟩ | ⟨t, d, hsome, hpend, htpos, htlt⟩
    · simp [timerTruthy, hnone, hpend]
    · have ht0 : (t != 0) = true := by
        simp only [bne_iff_ne, ne_eq]
        omega
      simp [timerTruthy, hsome, ht0, TimerSys.clearTimeout, hpend]
  refine ⟨?_, ?_, ?_⟩ <;>
    simp [setAccessToken, TimerSys.setTimeout, hcleared.1, hcleared.2]

/-- setAccessToken preserves well-formedness of the timer table. -/
theorem setAccessToken_wf (st : MSALState) (ts : TimerSys)
    (tok : String) (expiresOn : Int) (scopes : List String) (now : Int)
    (off : Option Int) (h : timerWellFormed st ts) :
    timerWellFormed (setAccessToken st ts tok expiresOn scopes now off).1
      (setAccessToken st ts tok expiresOn scopes now off).2 := by
  obtain ⟨h1, h2, h3⟩ := setAccessToken_step st ts tok expiresOn scopes now off h
  refine ⟨?_, Or.inr ⟨ts.nextId,
    expiresOn - now - renewalOffsetValue off, h3, h1, h.1, ?_⟩⟩
  · rw [h2]; omega
  · rw [h2]; omega

/-- Claim C2: at most one live token-expiration timer exists at any time —
every setAccessToken call cancels the previously stored pending timer before
scheduling the new one (the old handle is gone from the pending table), so a
successful acquireToken leaves exactly one timer pending, and a second
successful acquireToken before expiry still leaves exactly one. -/
theorem single_timer_invariant (st : MSALState) (ts : TimerSys)
    (h : timerWellFormed st ts)
    (tok : String) (expiresOn : Int) (scopes : List String)
    (r1 r2 : AuthResponse) (p1 p2 : QueryParameters)
    (now now1 now2 : Int) (off : Option Int) :
    (setAccessToken st ts tok expiresOn scopes now off).2.pending.length = 1 ∧
    (∀ t, st.tokenExpirationTimer = some t →
      t ∉ (setAccessToken st ts tok expiresOn scopes now off).2.pending.map
        PendingTimer.id) ∧
    (acquireToken st ts (.ok r1) p1 now1 off).ts.pending.length = 1 ∧
    (acquireToken (acquireToken st ts (.ok r1) p1 now1 off).st
        (acquireToken st ts (.ok r1) p1 now1 off).ts
        (.ok r2) p2 now2 off).ts.pending.length = 1 := by
  obtain ⟨hp1, hn1, htm1⟩ := setAccessToken_step st ts tok expiresOn scopes now off h
  refine ⟨by rw [hp1]; rfl, ?_, ?_, ?_⟩
  · intro t hsome
    rw [hp1]
    obtain ⟨hpos, hcase⟩ := h
    rcases hcase with ⟨hnone, _⟩ | ⟨u, d, hsome', _, hupos, hult⟩
    · rw [hnone] at hsome; cases hsome
    · rw [hsome'] at hsome
      have hut : u = t := by injection hsome
      subst hut
      simp only [List.map_cons, List.map_nil, List.mem_singleton]
      omega
  · have hs := setAccessToken_step st ts r1.accessToken r1.expiresOn r1.scopes now1 off h
    simp only [acquireToken]
    rw [hs.1]; rfl
  · have hwfA : timerWellFormed (acquireToken st ts (.ok r1) p1 now1 off).st
        (acquireToken st ts (.ok r1) p1 now1 off).ts := by
      simp only [acquireToken]
      exact setAccessToken_wf st ts r1.accessToken r1.expiresOn r1.scopes now1 off h
    have hs2 := setAccessToken_step _ _ r2.accessToken r2.expiresOn r2.scopes now2 off hwfA
    simp only [acquireToken] at hs2 ⊢
    rw [hs2.1]; rfl

/-- Witness for claim C2 at a concrete well-formed initial state (fresh
instance, empty timer table, first browser handle 1). -/
theorem single_timer_invariant_witness :
    (setAccessToken sampleState sampleTimers "tok" 1000 [] 0 none).2.pending.length = 1 ∧
    (∀ t, sampleState.tokenExpirationTimer = some t →
      t ∉ (setAccessToken sampleState sampleTimers "tok" 1000 [] 0 none).2.pending.map
        PendingTimer.id) ∧
    (acquireToken sampleState sampleTimers (.ok sampleResponse) sampleParams 0 none).ts.pending.length = 1 ∧
    (acquireToken (acquireToken sampleState sampleTimers (.ok sampleResponse) sampleParams 0 none).st
        (acquireToken sampleState sampleTimers (.ok sampleResponse) sampleParams 0 none).ts
        (.ok sampleResponse) sampleParams 0 none).ts.pending.length = 1 :=
  single_timer_invariant sampleState sampleTimers
    ⟨Nat.one_pos, Or.inl ⟨rfl, rfl⟩⟩
    "tok" 1000 [] sampleResponse sampleResponse sampleParams sampleParams 0 0 0 none

/-- Claim C5: constructing the facade with a missing or empty auth.clientId
fails synchronously with the configuration error, and the effect trace is
empty: the check runs before the identity client construction, so no
identity-client (network or storage) side effect occurs. -/
theorem construct_missing_clientId (config : Config)
    (href hash : String) (cb : String → Bool) (account : Option Account)
    (h : config.auth.clientId = none ∨ config.auth.clientId = some "") :
    construct config href hash cb account
      = ([], Except.error "auth.clientId option is required") := by
  have hf : clientIdFalsy config.auth.clientId = true := by
    rcases h with h | h <;> simp [clientIdFalsy, h]
  simp [construct, hf]

/-- Witness for claim C5 at a concrete configuration whose auth section
leaves clientId absent. -/
theorem construct_missing_clientId_witness :
    construct { auth := {} } "http://localhost/" "" (fun _ => false) none
      = ([], Except.error "auth.clientId option is required") :=
  construct_missing_clientId { auth := {} } "http://localhost/" ""
    (fun _ => false) none (Or.inl rfl)

/-- Claim C6: a query whose object endpoint carries an id stores, once the
transport resolves, the response body in the session result cache under that
id — overwriting any prior value — and returns the full response object to
the caller, not just the body. -/
theorem query_caches_response (st : MSALState) (ts : TimerSys)
    (e : EndpointObj) (i : String) (hid : e.id = some i) (hurl : e.url ≠ "")
    (options : QueryOptions) (parameters : QueryParameters)
    (silent : Except AuthError AuthResponse) (transport : QueryResponse)
    (baseUrl : Option String) (now : Int) (off : Option Int) :
    ∃ r, query st ts (.obj e) options parameters silent transport baseUrl now off
        = .ok r ∧
      r.st.dataQuery i = some transport.data ∧
      r.response = transport := by
  have hcq : createQuery (.obj e) options
      = .ok { url := e.url, method := options.method, headers := options.headers,
              params := options.params, data := options.data,
              responseType := options.responseType } := by
    simp [createQuery, hurl]
  simp only [query, executeQueryRequest, hcq, hid]
  refine ⟨_, rfl, ?_, rfl⟩
  simp [QueryData.setEntry]

/-- Witness for claim C6 at a concrete endpoint carrying the id profile. -/
theorem query_caches_response_witness :
    ∃ r, query sampleState sampleTimers (.obj ⟨"/me", some "profile"⟩)
        emptyOptions sampleParams (.ok sampleResponse) sampleTransport
        (some "https://graph.microsoft.com/v1.0") 0 none = .ok r ∧
      r.st.dataQuery "profile" = some sampleTransport.data ∧
      r.response = sampleTransport :=
  query_caches_response sampleState sampleTimers ⟨"/me", some "profile"⟩
    "profile" rfl (by decide) emptyOptions sampleParams (.ok sampleResponse)
    sampleTransport (some "https://graph.microsoft.com/v1.0") 0 none

/-- Claim C8: the request a query hands to the transport always carries an
Authorization header equal to Bearer followed by the access token the
instance holds after acquisition, and this value overwrites any
caller-supplied Authorization header while every other caller-supplied
header survives unchanged. -/
theorem query_authorization_header (st : MSALState) (ts : TimerSys)
    (endpoint : QueryEndpoint) (options : QueryOptions)
    (parameters : QueryParameters) (silent : Except AuthError AuthResponse)
    (transport : QueryResponse) (baseUrl : Option String) (now : Int)
    (off : Option Int) (h : endpointUrl endpoint ≠ "") :
    ∃ r, query st ts endpoint options parameters silent transport baseUrl now off
        = .ok r ∧
      r.request.headers "Authorization" = some ("Bearer " ++ r.st.accessToken) ∧
      ∀ k, k ≠ "Authorization" → r.request.headers k = options.headers k := by
  cases endpoint with
  | str s =>
    have hs : s ≠ "" := h
    have hcq : createQuery (.str s) options
        = .ok { url := s, method := options.method, headers := options.headers,
                params := options.params, data := options.data,
                responseType := options.responseType } := by
      simp [createQuery, hs]
    simp only [query, executeQueryRequest, hcq]
    refine ⟨_, rfl, ?_, ?_⟩
    · simp
    · intro k hk
      simp only []
      rw [if_neg hk]
      split <;> rfl
  | obj e =>
    have he : e.url ≠ "" := h
    have hcq : createQuery (.obj e) options
        = .ok { url := e.url, method := options.method, headers := options.headers,
                params := options.params, data := options.data,
                responseType := options.responseType } := by
      simp [createQuery, he]
    cases hid : e.id with
    | none =>
      simp only [query, executeQueryRequest, hcq, hid]
      refine ⟨_, rfl, ?_, ?_⟩
      · simp
      · intro k hk
        simp only []
        rw [if_neg hk]
        split <;> rfl
    | some i =>
      simp only [query, executeQueryRequest, hcq, hid]
      refine ⟨_, rfl, ?_, ?_⟩
      · simp
      · intro k hk
        simp only []
        rw [if_neg hk]
        split <;> rfl

/-- Witness for claim C8 at a concrete query whose caller-supplied options
already carry an Authorization header, which the built request overwrites. -/
theorem query_authorization_header_witness :
    ∃ r, query sampleState sampleTimers (.str "http://www.url.com")
        { headers := fun k =>
            if k = "Authorization" then some "Bearer my-token" else none }
        sampleParams (.ok sampleResponse) sampleTransport none 0 none
        = .ok r ∧
      r.request.headers "Authorization" = some ("Bearer " ++ r.st.accessToken) ∧
      ∀ k, k ≠ "Authorization" → r.request.headers k =
        (if k = "Authorization" then some "Bearer my-token" else none) :=
  query_authorization_header sampleState sampleTimers (.str "http://www.url.com")
    { headers := fun k =>
        if k = "Authorization" then some "Bearer my-token" else none }
    sampleParams (.ok sampleResponse) sampleTransport none 0 none (by decide)

/-- Counterexample to claim C7: the current createQuery drops an explicitly
supplied endpoint id (the produced descriptor carries none), and the earlier
revision's createQuery gives a bare string endpoint, outside any batch
context, the positional default id defaultID-0 instead of no id. -/
theorem createQuery_id_counterexample :
    (createQuery (.obj ⟨"/me", some "profile"⟩) emptyOptions).map Query.id
        ≠ Except.ok (some "profile") ∧
    (Legacy.createQuery (.str "/me") emptyOptions 0).map Query.id
        = Except.ok (some "defaultID-0") := by
  constructor
  · simp [createQuery, emptyOptions, Except.map]
  · simp [Legacy.createQuery, emptyOptions, Except.map]
    rfl

/-- Claim C7 (amended): the current createQuery never places an id in the
produced descriptor, not even an explicitly supplied one (the caller's id is
read directly off the endpoint later); the earlier revision's createQuery
always assigns one, keeping a non-empty explicitly supplied endpoint id and
otherwise falling back to the positional default defaultID-index in every
context — every call site leaves index at 0, so a bare string endpoint gets
defaultID-0. -/
theorem createQuery_id_amended (endpoint : QueryEndpoint)
    (options : QueryOptions) (index : Nat) (h : endpointUrl endpoint ≠ "") :
    ((createQuery endpoint options).map Query.id = .ok none) ∧
    (∀ i, endpointId endpoint = some i → i ≠ "" →
      (Legacy.createQuery endpoint options index).map Query.id = .ok (some i)) ∧
    ((endpointId endpoint = none ∨ endpointId endpoint = some "") →
      (Legacy.createQuery endpoint options index).map Query.id
        = .ok (some ("defaultID-" ++ toString index))) := by
  cases endpoint with
  | str s =>
    have hs : s ≠ "" := h
    refine ⟨by simp [createQuery, hs, Except.map], ?_, ?_⟩
    · intro i hi
      cases hi
    · intro _
      simp [Legacy.createQuery, hs, Except.map]
  | obj e =>
    have he : e.url ≠ "" := h
    refine ⟨by simp [createQuery, he, Except.map], ?_, ?_⟩
    · intro i hi hne
      simp only [endpointId] at hi
      simp [Legacy.createQuery, he, hi, hne, Except.map]
    · intro hcase
      simp only [endpointId] at hcase
      rcases hcase with hc | hc <;> simp [Legacy.createQuery, he, hc, Except.map]

/-- Witness for claim C7 (amended) at a concrete endpoint whose explicitly
supplied id is non-empty. -/
theorem createQuery_id_amended_witness :
    ((createQuery (.obj ⟨"/me", some "profile"⟩) emptyOptions).map Query.id
        = .ok none) ∧
    (∀ i, endpointId (.obj ⟨"/me", some "profile"⟩) = some i → i ≠ "" →
      (Legacy.createQuery (.obj ⟨"/me", some "profile"⟩) emptyOptions 0).map
        Query.id = .ok (some i)) ∧
    ((endpointId (.obj ⟨"/me", some "profile"⟩) = none ∨
        endpointId (.obj ⟨"/me", some "profile"⟩) = some "") →
      (Legacy.createQuery (.obj ⟨"/me", some "profile"⟩) emptyOptions 0).map
        Query.id = .ok (some ("defaultID-" ++ toString 0))) :=
  createQuery_id_amended (.obj ⟨"/me", some "profile"⟩) emptyOptions 0 (by decide)

/-- Counterexample to claim C9: with query.callAfterInit set and an absent
endpoint map, the init-time batch completes without any error (it silently
skips), and with an empty endpoint map it also completes without error; no
configuration error is raised on either path. -/
theorem initialQuery_no_error_counterexample :
    Legacy.afterInitAcquire true none [] (fun _ => none) (fun _ => "") ""
      = .ok { dataQuery := [], issued := [], storeWrites := [] } ∧
    Legacy.afterInitAcquire true (some []) [] (fun _ => none) (fun _ => "") ""
      = .ok { dataQuery := [], issued := [],
              storeWrites := [("msal.query-", [])] } := by
  constructor <;> rfl

/-- Claim C9 (amended): with the init-time batch flag set, an absent
endpoint map makes the batch silently skip — no error, no queries issued, no
store writes — and an empty endpoint map makes it run vacuously, issuing no
queries and raising no error either. -/
theorem initialQuery_skips_amended (dq0 : List (String × Payload))
    (stored : String → Option (List (String × Payload)))
    (transportData : String → Payload) (accessToken : String) :
    Legacy.afterInitAcquire true none dq0 stored transportData accessToken
      = .ok { dataQuery := dq0, issued := [], storeWrites := [] } ∧
    (∃ r, Legacy.afterInitAcquire true (some []) dq0 stored transportData
        accessToken = .ok r ∧ r.issued = []) := by
  exact ⟨rfl, ⟨_, rfl, rfl⟩⟩

end AuthMsal
